import Mathlib

/-!
Verification of the DREAMSCAPE ML ETL pipeline (dreamscape-services,
`src/ai/ml`) against its natural-language specification.

The pipeline is a sequence of deterministic tabular transforms over a
pandas DataFrame.  We shallowly embed a DataFrame as a `List Row`, where
`Row` is a structure holding the columns the verified stages touch.

Modelling conventions (kept uniform through the file):
* A nullable cell is an `Option`; `pd.notna` is `Option.isSome`.
* A raw timestamp cell is `Option TimeVal`: `none` is a null (NaN/NaT),
  `TimeVal.well t` is a string that parses to the instant `t` (measured in
  integer seconds on a second-granularity clock), and `TimeVal.bad` is a
  non-null string that `pd.to_datetime` fails to parse.
* Numeric cells are `ℚ` (every literal the pipeline compares against —
  5.0, 3.0, 1.0, -1.0, 0.0, 2.0, bounds — is exactly representable in
  binary floating point, so rational arithmetic is exact and faithful).
* A column that is absent from the frame at some pipeline stage is
  modelled as an all-`none` field.
* Python floors/truncations are modelled with explicit `Int.fdiv` /
  floor/truncation on `ℚ`.
-/

/-- Parse result of one raw timestamp string: either a parseable instant
(integer seconds) or a non-null unparseable value. -/
inductive TimeVal where
  | well (t : ℤ) : TimeVal
  | bad : TimeVal
deriving DecidableEq, Repr

/-- Model of `pd.to_datetime` on a single non-null cell: `bad` fails. -/
def parse_ts : TimeVal → Option ℤ
  | .well t => some t
  | .bad => none

/-- One record of the interaction frame.  Fields are the columns the
verified stages of `src/ai/ml/etl` read or write; dtypes follow the
pipeline (`status`, identifiers, `season`, `interaction_type` are object
columns; `user_age_group` is a pandas *category* column; `is_weekend` is
bool; the raw timestamp columns are datetime-like; the rest are numeric). -/
structure Row where
  status : Option String
  bookedAt : Option TimeVal
  clickedAt : Option TimeVal
  viewedAt : Option TimeVal
  rejectedAt : Option TimeVal
  createdAt : Option TimeVal
  dateOfBirth : Option TimeVal
  departureDate : Option TimeVal
  timestamp : Option ℤ
  user_age : Option ℚ
  season : Option String
  is_weekend : Option Bool
  days_until_departure : Option ℚ
  engagement_score : Option ℚ
  booking_probability : Option ℚ
  time_to_interaction : Option ℚ
  interaction_type : Option String
  interaction_id : Option String
  user_id : Option String
  recommendation_id : Option String
  user_hash : Option String
  user_nationality : Option String
  user_region : Option String
  user_age_group : Option String
  user_climate_pref : Option ℚ
  recommendation_score : Option ℚ
  budget_max : Option ℚ
  item_booking_count : Option ℚ
deriving DecidableEq, Repr

/-- A row with every cell null; concrete frames below are built from it. -/
def baseRow : Row :=
  { status := none, bookedAt := none, clickedAt := none, viewedAt := none
    rejectedAt := none, createdAt := none, dateOfBirth := none
    departureDate := none, timestamp := none, user_age := none
    season := none, is_weekend := none, days_until_departure := none
    engagement_score := none, booking_probability := none
    time_to_interaction := none, interaction_type := none
    interaction_id := none, user_id := none, recommendation_id := none
    user_hash := none, user_nationality := none, user_region := none
    user_age_group := none, user_climate_pref := none
    recommendation_score := none, budget_max := none
    item_booking_count := none }

/-! ### config/dataset_config.py -/

/-- `ENGAGEMENT_SCORES` dict from `config/dataset_config.py`, as the lookup
the label code performs. -/
def ENGAGEMENT_SCORES (s : String) : ℚ :=
  if s = "BOOKED" then 5
  else if s = "CLICKED" then 3
  else if s = "VIEWED" then 1
  else if s = "REJECTED" then -1
  else 0  -- NOT_VIEWED

/-! ### etl/label_construction.py -/

/-- `calculate_engagement_score` from `etl/label_construction.py`: the
timestamp-or-status cascade, checking booked, clicked, viewed, rejected in
that order and defaulting to NOT_VIEWED. -/
def calculate_engagement_score (r : Row) : ℚ :=
  if r.bookedAt.isSome ∨ r.status = some "BOOKED" then
    ENGAGEMENT_SCORES "BOOKED"
  else if r.clickedAt.isSome ∨ r.status = some "CLICKED" then
    ENGAGEMENT_SCORES "CLICKED"
  else if r.viewedAt.isSome ∨ r.status = some "VIEWED" then
    ENGAGEMENT_SCORES "VIEWED"
  else if r.rejectedAt.isSome ∨ r.status = some "REJECTED" then
    ENGAGEMENT_SCORES "REJECTED"
  else
    ENGAGEMENT_SCORES "NOT_VIEWED"

/-- The engagement score exactly as the specification sentence words it:
fixed precedence booked (5.0) > clicked (3.0) > viewed (1.0) > rejected
(-1.0) > none of the above (0.0); for each stage a non-null event
timestamp OR a status string equal to that stage's name selects it, and
evaluation short-circuits at the first match. -/
def specEngagementScore (r : Row) : ℚ :=
  if r.bookedAt.isSome ∨ r.status = some "BOOKED" then 5
  else if r.clickedAt.isSome ∨ r.status = some "CLICKED" then 3
  else if r.viewedAt.isSome ∨ r.status = some "VIEWED" then 1
  else if r.rejectedAt.isSome ∨ r.status = some "REJECTED" then -1
  else 0

/-- First `some` of two options (the way the code's if/elif chain picks
the first non-null cell). -/
def firstSome {α : Type} : Option α → Option α → Option α
  | some x, _ => some x
  | none, b => b

/-- `calculate_time_to_interaction` from `etl/label_construction.py`:
null creation time gives `None`; the interaction time is the first
non-null among viewedAt, clickedAt, bookedAt (that fixed order); the
try/except around `pd.to_datetime` turns any parse failure into `None`;
otherwise the difference in whole seconds. -/
def calculate_time_to_interaction (r : Row) : Option ℤ :=
  match r.createdAt with
  | none => none
  | some created =>
    let interaction : Option TimeVal :=
      if r.viewedAt.isSome then r.viewedAt
      else if r.clickedAt.isSome then r.clickedAt
      else if r.bookedAt.isSome then r.bookedAt
      else none
    match interaction with
    | none => none
    | some tv =>
      match parse_ts tv, parse_ts created with
      | some t, some c => some (t - c)
      | _, _ => none

/-- `time_to_interaction` exactly as the specification sentence words it:
seconds between interaction creation and the first non-null timestamp
among viewed, clicked, booked in that fixed order; null if the creation
timestamp is missing or no interaction timestamp exists; any parse
failure yields null. -/
def specTimeToInteraction (r : Row) : Option ℤ :=
  if r.createdAt.isNone then none
  else
    match firstSome r.viewedAt (firstSome r.clickedAt r.bookedAt) with
    | none => none
    | some tv =>
      match r.createdAt.bind parse_ts, parse_ts tv with
      | some c, some t => some (t - c)
      | _, _ => none

/-- `get_interaction_type` (nested in `construct_labels`): categorical
label from the already-computed engagement score. -/
def get_interaction_type (score : ℚ) : String :=
  if score = 5 then "BOOKED"
  else if score = 3 then "CLICKED"
  else if score = 1 then "VIEWED"
  else if score = -1 then "REJECTED"
  else "NOT_VIEWED"

/-- Per-row effect of `construct_labels`: writes `engagement_score`,
`booking_probability` (1 iff score is BOOKED's 5.0, via
`(engagement_score == 5.0).astype(int)`), `time_to_interaction`,
`interaction_type` and `interaction_id` (string form of the
recommendation id; on a null id pandas' `astype(str)` yields the literal
string of the null, modelled as "nan"). -/
def labelRow (r : Row) : Row :=
  let score := calculate_engagement_score r
  { r with
    engagement_score := some score
    booking_probability :=
      some (if score = ENGAGEMENT_SCORES "BOOKED" then 1 else 0)
    time_to_interaction := (calculate_time_to_interaction r).map
      (fun t => (t : ℚ))
    interaction_type := some (get_interaction_type score)
    interaction_id := some (r.recommendation_id.getD "nan") }

/-- `construct_labels` from `etl/label_construction.py`: row-wise
`df.apply` of the label constructors. -/
def construct_labels (df : List Row) : List Row :=
  df.map labelRow

/-- Claim C1: for every input row the engagement score is produced by the
fixed precedence order booked (5.0) > clicked (3.0) > viewed (1.0) >
rejected (-1.0) > none (0.0), where for each stage a non-null timestamp
or an equal status string selects it, short-circuiting at the first
match: the code equals the claim's cascade. -/
theorem engagement_score_precedence (r : Row) :
    calculate_engagement_score r = specEngagementScore r := by
  simp only [calculate_engagement_score, specEngagementScore,
    ENGAGEMENT_SCORES]
  simp

/-- Claim C9: `time_to_interaction` equals the whole number of seconds
between the creation timestamp and the first non-null timestamp among
viewed, clicked, booked evaluated in that fixed order; it is null when
the creation timestamp is missing, when no interaction timestamp exists,
or when a timestamp fails to parse; the function is total, so such a row
never raises. -/
theorem time_to_interaction_spec (r : Row) :
    calculate_time_to_interaction r = specTimeToInteraction r := by
  simp only [calculate_time_to_interaction, specTimeToInteraction]
  cases hc : r.createdAt with
  | none => simp
  | some created =>
    cases hv : r.viewedAt with
    | some v =>
      rcases h1 : parse_ts v with _ | t <;>
        rcases h2 : parse_ts created with _ | c <;> simp [firstSome, h1, h2]
    | none =>
      cases hk : r.clickedAt with
      | some k =>
        rcases h1 : parse_ts k with _ | t <;>
          rcases h2 : parse_ts created with _ | c <;> simp [firstSome, h1, h2]
      | none =>
        cases hb : r.bookedAt with
        | some b =>
          rcases h1 : parse_ts b with _ | t <;>
            rcases h2 : parse_ts created with _ | c <;>
              simp [firstSome, h1, h2]
        | none => simp [firstSome]

/-! ### etl/negative_sampling.py -/

/-- Python's `int()` applied to a rational: truncation toward zero. -/
def pythonInt (q : ℚ) : ℤ := if 0 ≤ q then ⌊q⌋ else -⌊-q⌋

/-- Predicate of the positive partition: `df['engagement_score'] > 0`
(a null score compares false in pandas). -/
def isPosScore (r : Row) : Bool :=
  match r.engagement_score with
  | some v => decide (0 < v)
  | none => false

/-- Predicate of the negative partition: `df['engagement_score'] == 0`. -/
def isZeroScore (r : Row) : Bool :=
  match r.engagement_score with
  | some v => decide (v = 0)
  | none => false

/-- `positives = df[df['engagement_score'] > 0]`. -/
def positives (df : List Row) : List Row := df.filter isPosScore

/-- `negatives = df[df['engagement_score'] == 0]`. -/
def negativesOf (df : List Row) : List Row := df.filter isZeroScore

/-- `n_target_negatives = int(n_positives * ratio)`. -/
def n_target_negatives (df : List Row) (rat : ℚ) : ℤ :=
  pythonInt (((positives df).length : ℚ) * rat)

/-- The sampled negative partition: when more negatives are available
than the target, `negatives.sample(n=n_target, random_state=42)` draws
`n_target` distinct rows, deterministically under the fixed seed; the
seeded draw is modelled as the deterministic selection of the first
`n_target` negative rows.  Otherwise all negatives are kept. -/
def sampled_negatives (df : List Row) (rat : ℚ) : List Row :=
  let negs := negativesOf df
  if ((negs.length : ℤ)) > n_target_negatives df rat then
    negs.take (n_target_negatives df rat).toNat
  else negs

/-- `df.sample(frac=1, random_state=42)`: the seeded full shuffle,
modelled as a fixed deterministic permutation (list reversal). -/
def shuffle42 {α : Type} (xs : List α) : List α := xs.reverse

/-- `add_negative_samples` from `etl/negative_sampling.py`: concatenate
the positive partition with the sampled negatives, then shuffle. -/
def add_negative_samples (df : List Row) (rat : ℚ) : List Row :=
  shuffle42 (positives df ++ sampled_negatives df rat)

/-- A labeled positive row (score 5.0) for concrete frames. -/
def posScoreRow : Row := { baseRow with engagement_score := some 5 }

/-- A labeled negative row (score 0.0) for concrete frames. -/
def negScoreRow : Row := { baseRow with engagement_score := some 0 }

/-- Concrete frame with P = 1 positive and N = 5 negatives. -/
def sampleFrameA : List Row :=
  [posScoreRow, negScoreRow, negScoreRow, negScoreRow, negScoreRow,
   negScoreRow]

/-- Concrete frame with P = 3 positives and N = 2 negatives. -/
def sampleFrameB : List Row :=
  [posScoreRow, posScoreRow, posScoreRow, negScoreRow, negScoreRow]

/-- Concrete frame with P = 100 positives and N = 500 negatives, the
instance named by the sampling-ratio acceptance property. -/
def sampleFrame100 : List Row :=
  List.replicate 100 posScoreRow ++ List.replicate 500 negScoreRow

theorem countP_replicate_helper {α : Type} (p : α → Bool) (a : α)
    (n : ℕ) : (List.replicate n a).countP p = if p a then n else 0 := by
  induction n with
  | zero => simp
  | succ n ih =>
    rw [List.replicate_succ, List.countP_cons]
    by_cases h : p a <;> simp [h, ih]


theorem isPosScore_not_zero {r : Row} (h : isPosScore r = true) :
    isZeroScore r = false := by
  unfold isPosScore at h
  unfold isZeroScore
  cases hs : r.engagement_score with
  | none => rfl
  | some v =>
    rw [hs] at h
    simp only [decide_eq_true_eq] at h
    simp only [decide_eq_false_iff_not]
    intro hv
    rw [hv] at h
    exact lt_irrefl 0 h

theorem pythonInt_nonneg {q : ℚ} (h : 0 ≤ q) : 0 ≤ pythonInt q := by
  unfold pythonInt
  rw [if_pos h]
  exact Int.le_floor.mpr (by exact_mod_cast h)

/-- Claim C3 (amended): the negative-row count of the sampling stage's
output is exactly `min N (int(P * ratio))` — Python `int` truncation, not
rounding — and on the frame with P = 100, ratio = 2.0, N = 500 it is
exactly 200.  The seeded selection is a pure function of the frame and
the ratio, hence deterministically reproducible. -/
theorem negative_sampling_count :
    (∀ (df : List Row) (rat : ℚ), 0 ≤ rat →
      ((add_negative_samples df rat).countP isZeroScore : ℤ) =
        min ((df.countP isZeroScore : ℕ) : ℤ)
          (pythonInt ((df.countP isPosScore : ℕ) * rat))) ∧
    (sampleFrame100.countP isPosScore = 100 ∧
     sampleFrame100.countP isZeroScore = 500 ∧
     (add_negative_samples sampleFrame100 2).countP isZeroScore = 200) := by
  have main : ∀ (df : List Row) (rat : ℚ), 0 ≤ rat →
      ((add_negative_samples df rat).countP isZeroScore : ℤ) =
        min ((df.countP isZeroScore : ℕ) : ℤ)
          (pythonInt ((df.countP isPosScore : ℕ) * rat)) := by
    intro df rat hrat
    have hP : ((positives df).length : ℚ) = (df.countP isPosScore : ℕ) := by
      rw [positives, ← List.countP_eq_length_filter]
    have hcount : (add_negative_samples df rat).countP isZeroScore =
        (sampled_negatives df rat).length := by
      rw [add_negative_samples, shuffle42, List.countP_reverse,
        List.countP_append]
      have hpos : (positives df).countP isZeroScore = 0 := by
        rw [List.countP_eq_zero]
        intro r hr
        have := List.of_mem_filter hr
        simp [isPosScore_not_zero this]
      have hneg : (sampled_negatives df rat).countP isZeroScore =
          (sampled_negatives df rat).length := by
        rw [List.countP_eq_length]
        intro r hr
        have hr2 : r ∈ negativesOf df := by
          unfold sampled_negatives at hr
          by_cases hc : ((negativesOf df).length : ℤ) >
              n_target_negatives df rat
          · rw [if_pos hc] at hr
            exact List.take_subset _ _ hr
          · rw [if_neg hc] at hr
            exact hr
        exact List.of_mem_filter hr2
      rw [hpos, hneg, Nat.zero_add]
    rw [hcount]
    have hN : (negativesOf df).length = df.countP isZeroScore := by
      rw [negativesOf, ← List.countP_eq_length_filter]
    have htarget : n_target_negatives df rat =
        pythonInt ((df.countP isPosScore : ℕ) * rat) := by
      rw [n_target_negatives, hP]
    unfold sampled_negatives
    by_cases hc : ((negativesOf df).length : ℤ) > n_target_negatives df rat
    · rw [if_pos hc]
      have h0 : 0 ≤ n_target_negatives df rat := by
        rw [n_target_negatives]
        apply pythonInt_nonneg
        positivity
      have hlen : ((negativesOf df).length) ≥
          (n_target_negatives df rat).toNat := by
        omega
      rw [List.length_take, Nat.min_eq_left hlen]
      rw [hN] at hc
      rw [htarget] at *
      omega
    · rw [if_neg hc]
      rw [hN] at hc
      rw [htarget] at *
      omega
  have hp100 : sampleFrame100.countP isPosScore = 100 := by
    unfold sampleFrame100
    rw [List.countP_append, countP_replicate_helper, countP_replicate_helper]
    simp [posScoreRow, negScoreRow, isPosScore, isZeroScore]
  have hz100 : sampleFrame100.countP isZeroScore = 500 := by
    unfold sampleFrame100
    rw [List.countP_append, countP_replicate_helper, countP_replicate_helper]
    simp [posScoreRow, negScoreRow, isPosScore, isZeroScore]
  refine ⟨main, hp100, hz100, ?_⟩
  have h := main sampleFrame100 2 (by norm_num)
  rw [hp100, hz100] at h
  have hpy : pythonInt (((100 : ℕ) : ℚ) * 2) = 200 := by
    norm_num [pythonInt]
  rw [hpy] at h
  omega

/-- Witness for C3's amended theorem at the frame with P = 1 positive,
N = 5 negatives and ratio 2. -/
theorem negative_sampling_count_witness :
    (0 : ℚ) ≤ 2 ∧
    ((add_negative_samples sampleFrameA 2).countP isZeroScore : ℤ) =
      min ((sampleFrameA.countP isZeroScore : ℕ) : ℤ)
        (pythonInt ((sampleFrameA.countP isPosScore : ℕ) * 2)) :=
  ⟨by norm_num, negative_sampling_count.1 sampleFrameA 2 (by norm_num)⟩

/-- Counterexample to C3 as stated: with P = 3 positives, N = 2 available
negatives and ratio 1/2, the code's truncated target `int(1.5) = 1` gives
1 sampled negative, while the claim's `min(N, round(P * ratio)) =
min(2, round(1.5)) = 2`. -/
theorem negative_sampling_round_counterexample :
    ¬ (((add_negative_samples sampleFrameB (1/2)).countP isZeroScore : ℤ) =
        min ((sampleFrameB.countP isZeroScore : ℕ) : ℤ)
          (round ((sampleFrameB.countP isPosScore : ℕ) * ((1:ℚ)/2)))) := by
  have h1 : (add_negative_samples sampleFrameB (1/2)).countP isZeroScore
      = 1 := by
    simp [add_negative_samples, sampleFrameB, shuffle42, positives,
      negativesOf, sampled_negatives, n_target_negatives, pythonInt,
      isZeroScore, isPosScore, posScoreRow, negScoreRow, baseRow,
      List.filter_cons]
    norm_num [isZeroScore, List.countP_cons]
  have h2 : sampleFrameB.countP isZeroScore = 2 := by
    simp [sampleFrameB, isZeroScore, posScoreRow, negScoreRow, baseRow,
      List.countP_cons]
  have h3 : sampleFrameB.countP isPosScore = 3 := by
    simp [sampleFrameB, isPosScore, posScoreRow, negScoreRow, baseRow,
      List.countP_cons]
  rw [h1, h2, h3]
  have h4 : round (((3 : ℕ) : ℚ) * ((1:ℚ)/2)) = 2 := by
    norm_num [round_eq]
  rw [h4]
  norm_num

theorem mem_sampled_negatives {df : List Row} {rat : ℚ} {r : Row}
    (hr : r ∈ sampled_negatives df rat) : r ∈ negativesOf df := by
  unfold sampled_negatives at hr
  by_cases hc : ((negativesOf df).length : ℤ) > n_target_negatives df rat
  · rw [if_pos hc] at hr
    exact List.take_subset _ _ hr
  · rw [if_neg hc] at hr
    exact hr

/-- Claim C4: every rejected row (engagement_score == -1.0) falls into
neither the positive nor the sampled-negative partition and is absent
from the sampling stage's output, which is a shuffling (permutation) of
exactly the positives together with the sampled negatives. -/
theorem negative_sampling_excludes_rejected (df : List Row) (rat : ℚ)
    (h : 0 ≤ rat) :
    (add_negative_samples df rat).Perm
      (positives df ++ sampled_negatives df rat) ∧
    (∀ r ∈ positives df, r.engagement_score ≠ some (-1)) ∧
    (∀ r ∈ sampled_negatives df rat, r.engagement_score ≠ some (-1)) ∧
    (∀ r ∈ add_negative_samples df rat, r.engagement_score ≠ some (-1)) := by
  have hpos : ∀ r ∈ positives df, r.engagement_score ≠ some (-1) := by
    intro r hr hscore
    have hb := List.of_mem_filter hr
    unfold isPosScore at hb
    rw [hscore] at hb
    simp only [decide_eq_true_eq] at hb
    exact absurd hb (by norm_num)
  have hneg : ∀ r ∈ sampled_negatives df rat,
      r.engagement_score ≠ some (-1) := by
    intro r hr hscore
    have hb := List.of_mem_filter (mem_sampled_negatives hr)
    unfold isZeroScore at hb
    rw [hscore] at hb
    simp only [decide_eq_true_eq] at hb
    exact absurd hb (by norm_num)
  refine ⟨?_, hpos, hneg, ?_⟩
  · exact (positives df ++ sampled_negatives df rat).reverse_perm
  · intro r hr
    rw [add_negative_samples, shuffle42, List.mem_reverse,
      List.mem_append] at hr
    rcases hr with hr | hr
    · exact hpos r hr
    · exact hneg r hr

/-- Witness for C4 at the concrete frame with 1 positive and 5
negatives. -/
theorem negative_sampling_excludes_rejected_witness :
    (0 : ℚ) ≤ 2 ∧ posScoreRow.engagement_score ≠ some (-1) :=
  ⟨by norm_num,
    (negative_sampling_excludes_rejected sampleFrameA 2
      (by norm_num)).2.1 posScoreRow
      (by
        simp [positives, sampleFrameA, isPosScore, posScoreRow,
          negScoreRow, baseRow, List.filter_cons])⟩

/-! ### etl/data_cleaning.py

The cleaning sub-stages loop over columns.  Distinct columns are
independent (filling or clipping one column never changes another
column's values), so each column-loop of per-row edits is embedded as a
single row-wise map whose per-column parameters (medians, missing flags,
out-of-range flags) are computed from the loop's input frame — exactly
the values the Python loop computes.  Row-dropping sub-stages
(`dropna`, the 3-sigma filter, deduplication) are embedded directly. -/

/-- One `df.dropna(subset=[col])` pass. -/
def dropnaCol {α : Type} (get : Row → Option α) (df : List Row) :
    List Row :=
  df.filter (fun r => (get r).isSome)

/-- `remove_missing_required`: sequential dropna over the critical
columns `user_id`, `user_climate_pref`, `recommendation_score`,
`engagement_score`. -/
def remove_missing_required (df : List Row) : List Row :=
  dropnaCol Row.engagement_score
    (dropnaCol Row.recommendation_score
      (dropnaCol Row.user_climate_pref
        (dropnaCol Row.user_id df)))

/-- Insertion into a sorted list of rationals. -/
def insertSorted (x : ℚ) : List ℚ → List ℚ
  | [] => [x]
  | y :: ys => if x ≤ y then x :: y :: ys else y :: insertSorted x ys

/-- Insertion sort over rationals. -/
def sortQ (l : List ℚ) : List ℚ := l.foldr insertSorted []

/-- `Series.median()` over the non-null values: middle element of the
sorted values, or the mean of the two middle elements. -/
def median (l : List ℚ) : ℚ :=
  let s := sortQ l
  let n := s.length
  if n % 2 = 1 then s.getD (n / 2) 0
  else ((s.getD (n / 2 - 1) 0) + s.getD (n / 2) 0) / 2

/-- Fill of one numeric cell by `fillna(median)`: a non-null cell is
kept; a null cell becomes the column median of the frame's non-null
values when any exist (the median of an all-null column is NaN and
`fillna(NaN)` changes nothing). -/
def fillN (df : List Row) (get : Row → Option ℚ) (r : Row) : Option ℚ :=
  match get r with
  | some v => some v
  | none =>
    if (df.filterMap get).isEmpty then none
    else some (median (df.filterMap get))

/-- Fill of one categorical cell by `fillna("UNKNOWN")`. -/
def fillC (df : List Row) (get : Row → Option String) (r : Row) :
    Option String :=
  match get r with
  | some v => some v
  | none => some "UNKNOWN"

/-- Per-row effect of `impute_missing_values`: every numeric column gets
its median fill, every object column gets the "UNKNOWN" fill
(`is_weekend` is bool dtype, `user_age_group` category dtype, the raw
timestamp columns datetime dtype — none of them are selected by the
dtype filters). -/
def imputeRow (df : List Row) (r : Row) : Row :=
  { r with
    user_age := fillN df Row.user_age r
    days_until_departure := fillN df Row.days_until_departure r
    engagement_score := fillN df Row.engagement_score r
    booking_probability := fillN df Row.booking_probability r
    time_to_interaction := fillN df Row.time_to_interaction r
    user_climate_pref := fillN df Row.user_climate_pref r
    recommendation_score := fillN df Row.recommendation_score r
    budget_max := fillN df Row.budget_max r
    item_booking_count := fillN df Row.item_booking_count r
    status := fillC df Row.status r
    season := fillC df Row.season r
    interaction_type := fillC df Row.interaction_type r
    interaction_id := fillC df Row.interaction_id r
    user_id := fillC df Row.user_id r
    recommendation_id := fillC df Row.recommendation_id r
    user_hash := fillC df Row.user_hash r
    user_nationality := fillC df Row.user_nationality r
    user_region := fillC df Row.user_region r }

/-- `impute_missing_values` from `etl/data_cleaning.py`. -/
def impute_missing_values (df : List Row) : List Row :=
  df.map (imputeRow df)

/-- Sample variance (ddof = 1, pandas default) of a value list; the
`std > 0` guard of the code is `2 ≤ n ∧ 0 < variance`, since for n ≥ 2
the standard deviation is positive iff the variance is, and for n ≤ 1
the sample std is NaN, which compares false. -/
def sampleVar (l : List ℚ) : ℚ :=
  (l.map (fun v => (v - l.sum / (l.length : ℚ)) ^ 2)).sum /
    ((l.length : ℚ) - 1)

/-- One column pass of `remove_outliers`: when the guard holds, keep the
rows whose value lies within mean ± 3·std, i.e. whose squared deviation
is at most 9·variance (null cells compare false against both bounds and
are dropped). -/
def outlierFilterCol (get : Row → Option ℚ) (df : List Row) : List Row :=
  if 2 ≤ (df.filterMap get).length ∧ 0 < sampleVar (df.filterMap get)
  then
    df.filter (fun r =>
      match get r with
      | some v =>
        decide ((v - (df.filterMap get).sum /
          ((df.filterMap get).length : ℚ)) ^ 2 ≤
            9 * sampleVar (df.filterMap get))
      | none => false)
  else df

/-- `remove_outliers` from `etl/data_cleaning.py`: sequential 3-sigma
filtering over `budget_max`, `user_age`, `item_booking_count`. -/
def remove_outliers (df : List Row) : List Row :=
  outlierFilterCol Row.item_booking_count
    (outlierFilterCol Row.user_age
      (outlierFilterCol Row.budget_max df))

/-- Out-of-range flag of one clip column: whether any non-null value
lies outside [0, 1]. -/
def outFlag (get : Row → Option ℚ) (df : List Row) : Bool :=
  df.any (fun r =>
    match get r with
    | some v => decide (v < 0) || decide (1 < v)
    | none => false)

/-- One clipped cell: `Series.clip(0, 1)` applied when the column's
out-of-range flag is set; nulls stay null, and clipping an in-range
value does not change it. -/
def clipN (df : List Row) (get : Row → Option ℚ) (r : Row) : Option ℚ :=
  match get r with
  | some v => if outFlag get df then some (min 1 (max 0 v)) else some v
  | none => none

/-- Per-row effect of the cleaning stage's `validate_vector_ranges`:
clipping of the float columns whose names contain `_pref`/`_level` or
start with `user_`/`item_` — in this frame `user_age`,
`user_climate_pref`, `item_booking_count` (the string columns with
matching names are excluded by the float-dtype test). -/
def clipRow (df : List Row) (r : Row) : Row :=
  { r with
    user_age := clipN df Row.user_age r
    user_climate_pref := clipN df Row.user_climate_pref r
    item_booking_count := clipN df Row.item_booking_count r }

namespace DataCleaning

/-- `validate_vector_ranges` from `etl/data_cleaning.py` (the cleaning
stage's clipping pass, distinct from the validator of
`utils/validators.py`). -/
def validate_vector_ranges (df : List Row) : List Row :=
  df.map (clipRow df)

end DataCleaning

/-- Deduplication key: the `['user_id', 'recommendation_id']` subset
(pandas treats null keys as equal to each other). -/
def dedupKey (r : Row) : Option String × Option String :=
  (r.user_id, r.recommendation_id)

/-- Worker of `drop_duplicates`: keep the first row of each key. -/
def dedupGo (seen : List (Option String × Option String)) :
    List Row → List Row
  | [] => []
  | r :: rs =>
    if dedupKey r ∈ seen then dedupGo seen rs
    else r :: dedupGo (dedupKey r :: seen) rs

/-- `remove_duplicates` from `etl/data_cleaning.py`. -/
def remove_duplicates (df : List Row) : List Row := dedupGo [] df

/-- `clean_dataset` from `etl/data_cleaning.py`: the five sub-stages in
order. -/
def clean_dataset (df : List Row) : List Row :=
  remove_duplicates
    (DataCleaning.validate_vector_ranges
      (remove_outliers
        (impute_missing_values
          (remove_missing_required df))))

theorem map_eq_self_of_mem {α : Type} {f : α → α} {l : List α}
    (h : ∀ a ∈ l, f a = a) : l.map f = l := by
  induction l with
  | nil => rfl
  | cons a l ih =>
    rw [List.map_cons, h a (List.mem_cons_self a l),
      ih (fun b hb => h b (List.mem_cons_of_mem a hb))]

theorem dedupGo_sublist (seen : List (Option String × Option String)) :
    ∀ l : List Row, (dedupGo seen l).Sublist l := by
  intro l
  induction l generalizing seen with
  | nil => simp [dedupGo]
  | cons r rs ih =>
    rw [dedupGo]
    by_cases hc : dedupKey r ∈ seen
    · rw [if_pos hc]
      exact (ih seen).cons r
    · rw [if_neg hc]
      exact (ih (dedupKey r :: seen)).cons₂ r

theorem remove_duplicates_sublist (df : List Row) :
    (remove_duplicates df).Sublist df :=
  dedupGo_sublist [] df

theorem outlierFilterCol_sublist (get : Row → Option ℚ)
    (df : List Row) : (outlierFilterCol get df).Sublist df := by
  unfold outlierFilterCol
  by_cases hc : 2 ≤ (df.filterMap get).length ∧
      0 < sampleVar (df.filterMap get)
  · rw [if_pos hc]
    exact List.filter_sublist df
  · rw [if_neg hc]

theorem remove_outliers_sublist (df : List Row) :
    (remove_outliers df).Sublist df := by
  unfold remove_outliers
  exact ((outlierFilterCol_sublist _ _).trans
    (outlierFilterCol_sublist _ _)).trans (outlierFilterCol_sublist _ _)

theorem fillN_of_some {df : List Row} {get : Row → Option ℚ} {r : Row}
    {v : ℚ} (h : get r = some v) : fillN df get r = some v := by
  unfold fillN
  rw [h]

theorem fillN_isSome_of_ne {df : List Row} {get : Row → Option ℚ}
    {r : Row} (hne : (df.filterMap get).isEmpty = false) :
    (fillN df get r).isSome := by
  unfold fillN
  cases hg : get r with
  | some v => simp
  | none => simp [hne]

theorem fillN_of_empty {df : List Row} {get : Row → Option ℚ} {r : Row}
    (hr : get r = none) (hemp : (df.filterMap get).isEmpty = true) :
    fillN df get r = none := by
  unfold fillN
  rw [hr]
  simp [hemp]

theorem fillC_isSome (df : List Row) (get : Row → Option String)
    (r : Row) : (fillC df get r).isSome := by
  unfold fillC
  cases get r <;> simp

theorem clipN_of_inrange {df : List Row} {get : Row → Option ℚ}
    {r : Row} (h : ∀ v, get r = some v → 0 ≤ v ∧ v ≤ 1) :
    clipN df get r = get r := by
  unfold clipN
  cases hg : get r with
  | none => rfl
  | some v =>
    obtain ⟨h0, h1⟩ := h v hg
    by_cases hf : outFlag get df
    · simp [hf, max_eq_right h0, min_eq_right h1]
    · simp [hf]

theorem clipN_isSome (d : List Row) (get : Row → Option ℚ) (r : Row) :
    (clipN d get r).isSome = (get r).isSome := by
  unfold clipN
  cases get r with
  | none => rfl
  | some v =>
    by_cases hf : outFlag get d <;> simp [hf]

theorem clipN_inrange {d : List Row} {get : Row → Option ℚ} {c : Row}
    (hc : c ∈ d) {v : ℚ} (h : clipN d get c = some v) :
    0 ≤ v ∧ v ≤ 1 := by
  unfold clipN at h
  cases hg : get c with
  | none => rw [hg] at h; exact absurd h (by simp)
  | some w =>
    rw [hg] at h
    have h2 : (if outFlag get d = true then some (1 ⊓ (0 ⊔ w))
        else some w) = some v := h
    by_cases hf : outFlag get d
    · rw [if_pos hf] at h2
      obtain rfl : 1 ⊓ (0 ⊔ w) = v := Option.some_injective _ h2
      constructor
      · exact le_min (by norm_num) (le_max_left 0 w)
      · exact min_le_left 1 (0 ⊔ w)
    · rw [if_neg hf] at h2
      obtain rfl : w = v := Option.some_injective _ h2
      unfold outFlag at hf
      rw [Bool.not_eq_true, List.any_eq_false] at hf
      have h4 := hf c hc
      rw [hg] at h4
      have h5 : ¬((decide (w < 0) || decide (1 < w)) = true) := h4
      simp only [Bool.or_eq_true, decide_eq_true_eq, not_or,
        not_lt] at h5
      exact ⟨h5.1, h5.2⟩

theorem fillN_self {X : List Row} {get : Row → Option ℚ} {r : Row}
    (hr : r ∈ X)
    (hst : (∀ s ∈ X, (get s).isSome) ∨ (∀ s ∈ X, get s = none)) :
    fillN X get r = get r := by
  rcases hst with h | h
  · obtain ⟨v, hv⟩ := Option.isSome_iff_exists.mp (h r hr)
    rw [fillN_of_some hv, hv]
  · have hemp : (X.filterMap get).isEmpty = true := by
      rw [List.isEmpty_iff]
      exact List.filterMap_eq_nil_iff.mpr h
    rw [fillN_of_empty (h r hr) hemp, h r hr]

theorem fillC_self {X : List Row} {get : Row → Option String} {r : Row}
    (h : (get r).isSome) : fillC X get r = get r := by
  obtain ⟨v, hv⟩ := Option.isSome_iff_exists.mp h
  unfold fillC
  rw [hv]

/-- Rows of the required-column dropna pass carry the four non-null
critical cells. -/
theorem mem_remove_missing_required {df : List Row} {r : Row}
    (hr : r ∈ remove_missing_required df) :
    r ∈ df ∧ r.user_id.isSome ∧ r.user_climate_pref.isSome ∧
      r.recommendation_score.isSome ∧ r.engagement_score.isSome := by
  unfold remove_missing_required dropnaCol at hr
  simp only [List.mem_filter] at hr
  exact ⟨hr.1.1.1.1, hr.1.1.1.2, hr.1.1.2, hr.1.2, hr.2⟩

/-- Every cleaned row is the clip image of a member of the
outlier-filtered imputed frame. -/
theorem clean_parent {df : List Row} {r : Row}
    (hr : r ∈ clean_dataset df) :
    ∃ c ∈ remove_outliers
        (impute_missing_values (remove_missing_required df)),
      r = clipRow (remove_outliers
        (impute_missing_values (remove_missing_required df))) c := by
  unfold clean_dataset at hr
  have hr2 := (remove_duplicates_sublist _).subset hr
  unfold DataCleaning.validate_vector_ranges at hr2
  obtain ⟨c, hc, hrc⟩ := List.mem_map.mp hr2
  exact ⟨c, hc, hrc.symm⟩

/-- Every member of the imputed frame is the impute image of an input
row. -/
theorem mem_impute {A : List Row} {b : Row}
    (hb : b ∈ impute_missing_values A) :
    ∃ a ∈ A, b = imputeRow A a := by
  unfold impute_missing_values at hb
  obtain ⟨a, ha, hab⟩ := List.mem_map.mp hb
  exact ⟨a, ha, hab.symm⟩

/-- After imputation a numeric column is either everywhere non-null
(some non-null value existed, so the median fill completed it) or
everywhere null (the all-null column's median is NaN and nothing is
filled). -/
theorem impute_status (A : List Row) (get : Row → Option ℚ)
    (hfield : ∀ d r, get (imputeRow d r) = fillN d get r) :
    (∀ b ∈ impute_missing_values A, (get b).isSome) ∨
    (∀ b ∈ impute_missing_values A, get b = none) := by
  by_cases hemp : (A.filterMap get).isEmpty
  · right
    intro b hb
    obtain ⟨a, ha, rfl⟩ := mem_impute hb
    rw [hfield]
    have hnone : get a = none :=
      List.filterMap_eq_nil_iff.mp (List.isEmpty_iff.mp hemp) a ha
    exact fillN_of_empty hnone hemp
  · left
    intro b hb
    obtain ⟨a, ha, rfl⟩ := mem_impute hb
    rw [hfield]
    exact fillN_isSome_of_ne (by rwa [Bool.not_eq_true] at hemp)

/-- The all-non-null-or-all-null status of a numeric column survives to
the cleaned frame. -/
theorem clean_status (df : List Row) (get : Row → Option ℚ)
    (hfieldI : ∀ d r, get (imputeRow d r) = fillN d get r)
    (hfieldC : ∀ d r, (get (clipRow d r)).isSome = (get r).isSome) :
    (∀ r ∈ clean_dataset df, (get r).isSome) ∨
    (∀ r ∈ clean_dataset df, get r = none) := by
  rcases impute_status (remove_missing_required df) get hfieldI with h | h
  · left
    intro r hr
    obtain ⟨c, hc, rfl⟩ := clean_parent hr
    rw [hfieldC]
    exact h c ((remove_outliers_sublist _).subset hc)
  · right
    intro r hr
    obtain ⟨c, hc, rfl⟩ := clean_parent hr
    have h2 := h c ((remove_outliers_sublist _).subset hc)
    have h3 := hfieldC (remove_outliers
      (impute_missing_values (remove_missing_required df))) c
    rw [h2] at h3
    cases hx : get (clipRow (remove_outliers
        (impute_missing_values (remove_missing_required df))) c) with
    | none => rfl
    | some v => rw [hx] at h3; exact absurd h3 (by simp)

/-- Every object column of the cleaned frame is everywhere non-null
(the "UNKNOWN" fill completed it). -/
theorem clean_cat (df : List Row) : ∀ r ∈ clean_dataset df,
    r.status.isSome ∧ r.season.isSome ∧ r.interaction_type.isSome ∧
    r.interaction_id.isSome ∧ r.user_id.isSome ∧
    r.recommendation_id.isSome ∧ r.user_hash.isSome ∧
    r.user_nationality.isSome ∧ r.user_region.isSome := by
  intro r hr
  obtain ⟨c, hc, rfl⟩ := clean_parent hr
  obtain ⟨a, ha, rfl⟩ := mem_impute ((remove_outliers_sublist _).subset hc)
  exact ⟨fillC_isSome (remove_missing_required df) Row.status a,
    fillC_isSome (remove_missing_required df) Row.season a,
    fillC_isSome (remove_missing_required df) Row.interaction_type a,
    fillC_isSome (remove_missing_required df) Row.interaction_id a,
    fillC_isSome (remove_missing_required df) Row.user_id a,
    fillC_isSome (remove_missing_required df) Row.recommendation_id a,
    fillC_isSome (remove_missing_required df) Row.user_hash a,
    fillC_isSome (remove_missing_required df) Row.user_nationality a,
    fillC_isSome (remove_missing_required df) Row.user_region a⟩

/-- The four critical columns of the cleaned frame are everywhere
non-null. -/
theorem clean_req (df : List Row) : ∀ r ∈ clean_dataset df,
    r.user_id.isSome ∧ r.user_climate_pref.isSome ∧
    r.recommendation_score.isSome ∧ r.engagement_score.isSome := by
  intro r hr
  obtain ⟨c, hc, rfl⟩ := clean_parent hr
  obtain ⟨a, ha, rfl⟩ := mem_impute ((remove_outliers_sublist _).subset hc)
  obtain ⟨-, hid, hcl, hrs, hes⟩ := mem_remove_missing_required ha
  refine ⟨fillC_isSome (remove_missing_required df) Row.user_id a,
    ?_, ?_, ?_⟩
  · obtain ⟨v, hv⟩ := Option.isSome_iff_exists.mp hcl
    show (clipN
      (remove_outliers (impute_missing_values
        (remove_missing_required df)))
      Row.user_climate_pref
      (imputeRow (remove_missing_required df) a)).isSome
    rw [clipN_isSome]
    show (fillN (remove_missing_required df)
      Row.user_climate_pref a).isSome
    rw [fillN_of_some hv]
    rfl
  · obtain ⟨v, hv⟩ := Option.isSome_iff_exists.mp hrs
    show (fillN (remove_missing_required df)
      Row.recommendation_score a).isSome
    rw [fillN_of_some hv]
    rfl
  · obtain ⟨v, hv⟩ := Option.isSome_iff_exists.mp hes
    show (fillN (remove_missing_required df)
      Row.engagement_score a).isSome
    rw [fillN_of_some hv]
    rfl

/-- The clipped columns of the cleaned frame lie within [0, 1]. -/
theorem clean_range (df : List Row) : ∀ r ∈ clean_dataset df,
    (∀ v, r.user_age = some v → 0 ≤ v ∧ v ≤ 1) ∧
    (∀ v, r.user_climate_pref = some v → 0 ≤ v ∧ v ≤ 1) ∧
    (∀ v, r.item_booking_count = some v → 0 ≤ v ∧ v ≤ 1) := by
  intro r hr
  obtain ⟨c, hc, rfl⟩ := clean_parent hr
  refine ⟨?_, ?_, ?_⟩ <;> intro v hv
  · exact clipN_inrange hc (show clipN _ Row.user_age c = some v from hv)
  · exact clipN_inrange hc
      (show clipN _ Row.user_climate_pref c = some v from hv)
  · exact clipN_inrange hc
      (show clipN _ Row.item_booking_count c = some v from hv)

theorem dedupGo_avoid (seen : List (Option String × Option String))
    (l : List Row) : ∀ r ∈ dedupGo seen l, dedupKey r ∉ seen := by
  induction l generalizing seen with
  | nil => intro r hr; simp [dedupGo] at hr
  | cons a l ih =>
    intro r hr
    rw [dedupGo] at hr
    by_cases hc : dedupKey a ∈ seen
    · rw [if_pos hc] at hr
      exact ih seen r hr
    · rw [if_neg hc] at hr
      rcases List.mem_cons.mp hr with rfl | hr2
      · exact hc
      · intro hmem
        exact ih (dedupKey a :: seen) r hr2 (List.mem_cons_of_mem _ hmem)

theorem dedupGo_pairwise (seen : List (Option String × Option String))
    (l : List Row) :
    (dedupGo seen l).Pairwise (fun a b => dedupKey a ≠ dedupKey b) := by
  induction l generalizing seen with
  | nil => simp [dedupGo]
  | cons a l ih =>
    rw [dedupGo]
    by_cases hc : dedupKey a ∈ seen
    · rw [if_pos hc]
      exact ih seen
    · rw [if_neg hc]
      refine List.Pairwise.cons ?_ (ih _)
      intro b hb he
      exact dedupGo_avoid (dedupKey a :: seen) l b hb
        (he ▸ List.mem_cons_self _ _)

theorem dedupGo_eq_self {l : List Row}
    {seen : List (Option String × Option String)}
    (hp : l.Pairwise (fun a b => dedupKey a ≠ dedupKey b))
    (hs : ∀ r ∈ l, dedupKey r ∉ seen) : dedupGo seen l = l := by
  induction l generalizing seen with
  | nil => rfl
  | cons a l ih =>
    rw [dedupGo, if_neg (hs a (List.mem_cons_self a l))]
    congr 1
    apply ih (List.pairwise_cons.mp hp).2
    intro r hr hmem
    rcases List.mem_cons.mp hmem with he | hm
    · exact (List.pairwise_cons.mp hp).1 r hr he.symm
    · exact hs r (List.mem_cons_of_mem _ hr) hm

theorem remove_duplicates_eq_self {l : List Row}
    (hp : l.Pairwise (fun a b => dedupKey a ≠ dedupKey b)) :
    remove_duplicates l = l :=
  dedupGo_eq_self hp (fun r _ hmem => absurd hmem (List.not_mem_nil _))

theorem clean_keys_pairwise (df : List Row) :
    (clean_dataset df).Pairwise (fun a b => dedupKey a ≠ dedupKey b) :=
  dedupGo_pairwise [] _

/-- Claim C5 (amended): a second run of the cleaning stage on its own
output reduces to the 3-sigma outlier-removal sub-stage alone — the
required-null drop, imputation, clipping and deduplication sub-stages
are all identities on cleaned data, and any further change comes solely
from outlier removal (which, recomputing mean and deviation on the
already-filtered data, may remove further rows). -/
theorem clean_dataset_second_pass (df : List Row) :
    clean_dataset (clean_dataset df) =
      remove_outliers (clean_dataset df) := by
  have hreq := clean_req df
  have hcat := clean_cat df
  have hrange := clean_range df
  have hkeys := clean_keys_pairwise df
  have hs_ua := clean_status df Row.user_age (fun _ _ => rfl)
    (fun d r => clipN_isSome d Row.user_age r)
  have hs_dud := clean_status df Row.days_until_departure
    (fun _ _ => rfl) (fun _ _ => rfl)
  have hs_es := clean_status df Row.engagement_score
    (fun _ _ => rfl) (fun _ _ => rfl)
  have hs_bp := clean_status df Row.booking_probability
    (fun _ _ => rfl) (fun _ _ => rfl)
  have hs_tti := clean_status df Row.time_to_interaction
    (fun _ _ => rfl) (fun _ _ => rfl)
  have hs_ucp := clean_status df Row.user_climate_pref (fun _ _ => rfl)
    (fun d r => clipN_isSome d Row.user_climate_pref r)
  have hs_rs := clean_status df Row.recommendation_score
    (fun _ _ => rfl) (fun _ _ => rfl)
  have hs_bm := clean_status df Row.budget_max
    (fun _ _ => rfl) (fun _ _ => rfl)
  have hs_ibc := clean_status df Row.item_booking_count
    (fun _ _ => rfl) (fun d r => clipN_isSome d Row.item_booking_count r)
  have hA : remove_missing_required (clean_dataset df) =
      clean_dataset df := by
    have h1 : dropnaCol Row.user_id (clean_dataset df) =
        clean_dataset df :=
      List.filter_eq_self.mpr (fun r hr => (hreq r hr).1)
    have h2 : dropnaCol Row.user_climate_pref (clean_dataset df) =
        clean_dataset df :=
      List.filter_eq_self.mpr (fun r hr => (hreq r hr).2.1)
    have h3 : dropnaCol Row.recommendation_score (clean_dataset df) =
        clean_dataset df :=
      List.filter_eq_self.mpr (fun r hr => (hreq r hr).2.2.1)
    have h4 : dropnaCol Row.engagement_score (clean_dataset df) =
        clean_dataset df :=
      List.filter_eq_self.mpr (fun r hr => (hreq r hr).2.2.2)
    unfold remove_missing_required
    rw [h1, h2, h3, h4]
  have hB : impute_missing_values (clean_dataset df) =
      clean_dataset df := by
    unfold impute_missing_values
    apply map_eq_self_of_mem
    intro r hr
    obtain ⟨g1, g2, g3, g4, g5, g6, g7, g8, g9⟩ := hcat r hr
    have f1 : fillN (clean_dataset df) Row.user_age r = r.user_age :=
      fillN_self hr hs_ua
    have f2 : fillN (clean_dataset df) Row.days_until_departure r =
        r.days_until_departure := fillN_self hr hs_dud
    have f3 : fillN (clean_dataset df) Row.engagement_score r =
        r.engagement_score := fillN_self hr hs_es
    have f4 : fillN (clean_dataset df) Row.booking_probability r =
        r.booking_probability := fillN_self hr hs_bp
    have f5 : fillN (clean_dataset df) Row.time_to_interaction r =
        r.time_to_interaction := fillN_self hr hs_tti
    have f6 : fillN (clean_dataset df) Row.user_climate_pref r =
        r.user_climate_pref := fillN_self hr hs_ucp
    have f7 : fillN (clean_dataset df) Row.recommendation_score r =
        r.recommendation_score := fillN_self hr hs_rs
    have f8 : fillN (clean_dataset df) Row.budget_max r =
        r.budget_max := fillN_self hr hs_bm
    have f9 : fillN (clean_dataset df) Row.item_booking_count r =
        r.item_booking_count := fillN_self hr hs_ibc
    have k1 : fillC (clean_dataset df) Row.status r = r.status :=
      fillC_self g1
    have k2 : fillC (clean_dataset df) Row.season r = r.season :=
      fillC_self g2
    have k3 : fillC (clean_dataset df) Row.interaction_type r =
        r.interaction_type := fillC_self g3
    have k4 : fillC (clean_dataset df) Row.interaction_id r =
        r.interaction_id := fillC_self g4
    have k5 : fillC (clean_dataset df) Row.user_id r = r.user_id :=
      fillC_self g5
    have k6 : fillC (clean_dataset df) Row.recommendation_id r =
        r.recommendation_id := fillC_self g6
    have k7 : fillC (clean_dataset df) Row.user_hash r = r.user_hash :=
      fillC_self g7
    have k8 : fillC (clean_dataset df) Row.user_nationality r =
        r.user_nationality := fillC_self g8
    have k9 : fillC (clean_dataset df) Row.user_region r =
        r.user_region := fillC_self g9
    show imputeRow (clean_dataset df) r = r
    unfold imputeRow
    rw [f1, f2, f3, f4, f5, f6, f7, f8, f9,
      k1, k2, k3, k4, k5, k6, k7, k8, k9]
  have hC : DataCleaning.validate_vector_ranges
      (remove_outliers (clean_dataset df)) =
      remove_outliers (clean_dataset df) := by
    unfold DataCleaning.validate_vector_ranges
    apply map_eq_self_of_mem
    intro r hr
    obtain ⟨hr_ua, hr_ucp, hr_ibc⟩ :=
      hrange r ((remove_outliers_sublist _).subset hr)
    have c1 : clipN (remove_outliers (clean_dataset df))
        Row.user_age r = r.user_age := clipN_of_inrange hr_ua
    have c2 : clipN (remove_outliers (clean_dataset df))
        Row.user_climate_pref r = r.user_climate_pref :=
      clipN_of_inrange hr_ucp
    have c3 : clipN (remove_outliers (clean_dataset df))
        Row.item_booking_count r = r.item_booking_count :=
      clipN_of_inrange hr_ibc
    show clipRow (remove_outliers (clean_dataset df)) r = r
    unfold clipRow
    rw [c1, c2, c3]
  have hD : remove_duplicates (remove_outliers (clean_dataset df)) =
      remove_outliers (clean_dataset df) :=
    remove_duplicates_eq_self
      (List.Pairwise.sublist (remove_outliers_sublist _) hkeys)
  show remove_duplicates
    (DataCleaning.validate_vector_ranges
      (remove_outliers
        (impute_missing_values
          (remove_missing_required (clean_dataset df))))) =
    remove_outliers (clean_dataset df)
  rw [hA, hB, hC, hD]

/-- A fully-populated row for the cleaning counterexample: all required
cells present, `budget_max` carrying the outlier-column value. -/
def cleanRowFor (uid : String) (bm : ℚ) : Row :=
  { baseRow with
    user_id := some uid
    user_climate_pref := some (1/2)
    recommendation_score := some 0
    engagement_score := some 0
    budget_max := some bm }

/-- The image of `cleanRowFor` under imputation ("UNKNOWN" fills of the
null object columns). -/
def imputedOutlierRow (uid : String) (bm : ℚ) : Row :=
  { baseRow with
    user_id := some uid
    user_climate_pref := some (1/2)
    recommendation_score := some 0
    engagement_score := some 0
    budget_max := some bm
    status := some "UNKNOWN"
    season := some "UNKNOWN"
    interaction_type := some "UNKNOWN"
    interaction_id := some "UNKNOWN"
    recommendation_id := some "UNKNOWN"
    user_hash := some "UNKNOWN"
    user_nationality := some "UNKNOWN"
    user_region := some "UNKNOWN" }

/-- Twelve-row frame whose `budget_max` column is ten 0s, a 5 and a
1000: the first cleaning pass removes only the 1000 (its squared
deviation exceeds 9 times the sample variance), after which the 5
becomes a 3-sigma outlier of the remaining eleven values. -/
def outlierFrame : List Row :=
  [cleanRowFor "u01" 0, cleanRowFor "u02" 0, cleanRowFor "u03" 0,
   cleanRowFor "u04" 0, cleanRowFor "u05" 0, cleanRowFor "u06" 0,
   cleanRowFor "u07" 0, cleanRowFor "u08" 0, cleanRowFor "u09" 0,
   cleanRowFor "u10" 0, cleanRowFor "u11" 5, cleanRowFor "u12" 1000]

/-- `outlierFrame` after imputation. -/
def imputedFrame12 : List Row :=
  [imputedOutlierRow "u01" 0, imputedOutlierRow "u02" 0,
   imputedOutlierRow "u03" 0, imputedOutlierRow "u04" 0,
   imputedOutlierRow "u05" 0, imputedOutlierRow "u06" 0,
   imputedOutlierRow "u07" 0, imputedOutlierRow "u08" 0,
   imputedOutlierRow "u09" 0, imputedOutlierRow "u10" 0,
   imputedOutlierRow "u11" 5, imputedOutlierRow "u12" 1000]

/-- `outlierFrame` after one full cleaning pass. -/
def imputedFrame11 : List Row :=
  [imputedOutlierRow "u01" 0, imputedOutlierRow "u02" 0,
   imputedOutlierRow "u03" 0, imputedOutlierRow "u04" 0,
   imputedOutlierRow "u05" 0, imputedOutlierRow "u06" 0,
   imputedOutlierRow "u07" 0, imputedOutlierRow "u08" 0,
   imputedOutlierRow "u09" 0, imputedOutlierRow "u10" 0,
   imputedOutlierRow "u11" 5]

/-- `outlierFrame` after two cleaning passes. -/
def imputedFrame10 : List Row :=
  [imputedOutlierRow "u01" 0, imputedOutlierRow "u02" 0,
   imputedOutlierRow "u03" 0, imputedOutlierRow "u04" 0,
   imputedOutlierRow "u05" 0, imputedOutlierRow "u06" 0,
   imputedOutlierRow "u07" 0, imputedOutlierRow "u08" 0,
   imputedOutlierRow "u09" 0, imputedOutlierRow "u10" 0]

/-- Counterexample to C5 as stated: the cleaning stage is not
idempotent.  On `outlierFrame` the first pass removes the 1000 row;
re-running cleaning on the output removes the 5 row as well, because the
3-sigma bounds are recomputed on the narrowed data. -/
theorem cleaning_not_idempotent :
    clean_dataset (clean_dataset outlierFrame) ≠
      clean_dataset outlierFrame := by
  have h1 : remove_missing_required outlierFrame = outlierFrame := by
    simp [remove_missing_required, dropnaCol, outlierFrame, cleanRowFor,
      baseRow, List.filter_cons]
  have h2 : impute_missing_values outlierFrame = imputedFrame12 := by
    simp [impute_missing_values, imputeRow, fillN, fillC, outlierFrame,
      cleanRowFor, imputedOutlierRow, imputedFrame12, baseRow,
      List.filterMap_cons]
  have h3 : remove_outliers imputedFrame12 = imputedFrame11 := by
    norm_num [remove_outliers, outlierFilterCol, sampleVar,
      imputedFrame12, imputedFrame11, imputedOutlierRow, baseRow,
      List.filterMap_cons, List.filter_cons]
  have h4 : DataCleaning.validate_vector_ranges imputedFrame11 =
      imputedFrame11 := by
    norm_num [DataCleaning.validate_vector_ranges, clipRow, clipN,
      outFlag, imputedFrame11, imputedOutlierRow, baseRow]
  have h5 : remove_duplicates imputedFrame11 = imputedFrame11 := by
    apply remove_duplicates_eq_self
    simp [imputedFrame11, imputedOutlierRow, baseRow,
      List.pairwise_cons, dedupKey]
  have hclean1 : clean_dataset outlierFrame = imputedFrame11 := by
    show remove_duplicates
      (DataCleaning.validate_vector_ranges
        (remove_outliers
          (impute_missing_values
            (remove_missing_required outlierFrame)))) = imputedFrame11
    rw [h1, h2, h3, h4, h5]
  have g1 : remove_missing_required imputedFrame11 = imputedFrame11 := by
    simp [remove_missing_required, dropnaCol, imputedFrame11,
      imputedOutlierRow, baseRow, List.filter_cons]
  have g2 : impute_missing_values imputedFrame11 = imputedFrame11 := by
    simp [impute_missing_values, imputeRow, fillN, fillC,
      imputedFrame11, imputedOutlierRow, baseRow, List.filterMap_cons]
  have g3 : remove_outliers imputedFrame11 = imputedFrame10 := by
    norm_num [remove_outliers, outlierFilterCol, sampleVar,
      imputedFrame11, imputedFrame10, imputedOutlierRow, baseRow,
      List.filterMap_cons, List.filter_cons]
  have g4 : DataCleaning.validate_vector_ranges imputedFrame10 =
      imputedFrame10 := by
    norm_num [DataCleaning.validate_vector_ranges, clipRow, clipN,
      outFlag, imputedFrame10, imputedOutlierRow, baseRow]
  have g5 : remove_duplicates imputedFrame10 = imputedFrame10 := by
    apply remove_duplicates_eq_self
    simp [imputedFrame10, imputedOutlierRow, baseRow,
      List.pairwise_cons, dedupKey]
  have hclean2 : clean_dataset imputedFrame11 = imputedFrame10 := by
    show remove_duplicates
      (DataCleaning.validate_vector_ranges
        (remove_outliers
          (impute_missing_values
            (remove_missing_required imputedFrame11)))) = imputedFrame10
    rw [g1, g2, g3, g4, g5]
  rw [hclean1, hclean2]
  intro he
  have hlen := congrArg List.length he
  simp [imputedFrame10, imputedFrame11] at hlen

/-! ### etl/gdpr_anonymization.py -/

/-- Model of the SHA-256 hex digest of a string: a deterministic
injective function (the verified properties rely only on determinism
and collision-freedom, which the digest provides in practice). -/
def sha256hex (s : String) : String := String.mk ('#' :: s.data)

/-- `str(x)` applied to a possibly-null cell: pandas `.apply` passes a
null through as NaN and `str(nan)` is the literal string "nan". -/
def strOfCell : Option String → String
  | some s => s
  | none => "nan"

/-- `hash_user_ids`: `df['user_hash'] =
df['user_id'].apply(lambda x: sha256(str(x)).hexdigest())`. -/
def hash_user_ids (df : List Row) : List Row :=
  df.map (fun r =>
    { r with user_hash := some (sha256hex (strOfCell r.user_id)) })

/-- `COUNTRY_TO_REGION` from `config/dataset_config.py`. -/
def COUNTRY_TO_REGION (c : String) : Option String :=
  if c = "FR" ∨ c = "DE" ∨ c = "IT" ∨ c = "ES" ∨ c = "UK" ∨ c = "PT" ∨
     c = "NL" ∨ c = "BE" ∨ c = "CH" ∨ c = "AT" ∨ c = "GR" ∨ c = "SE" ∨
     c = "NO" ∨ c = "DK" ∨ c = "FI" then some "Europe"
  else if c = "US" ∨ c = "CA" ∨ c = "MX" then some "North America"
  else if c = "CN" ∨ c = "JP" ∨ c = "KR" ∨ c = "IN" ∨ c = "TH" ∨
     c = "VN" ∨ c = "ID" ∨ c = "MY" ∨ c = "SG" ∨ c = "PH" then
    some "Asia"
  else if c = "AE" ∨ c = "SA" ∨ c = "IL" ∨ c = "TR" then
    some "Middle East"
  else if c = "AU" ∨ c = "NZ" then some "Oceania"
  else if c = "BR" ∨ c = "AR" ∨ c = "CL" ∨ c = "PE" then
    some "South America"
  else if c = "ZA" ∨ c = "EG" ∨ c = "MA" ∨ c = "KE" then some "Africa"
  else none

/-- `generalize_nationality`: map through the lookup, `fillna('Other')`
(an unmapped or null nationality becomes "Other"), drop the raw
nationality column. -/
def generalize_nationality (df : List Row) : List Row :=
  df.map (fun r =>
    { r with
      user_region := some (match r.user_nationality with
        | some c => (COUNTRY_TO_REGION c).getD "Other"
        | none => "Other")
      user_nationality := none })

/-- `pd.cut` with `AGE_BINS`/`AGE_LABELS` and `include_lowest=True`:
right-closed bins (0,25], (25,35], (35,50], (50,65], (65,100] with the
first bin closed below at 0; a value outside all bins (or null) yields
null. -/
def ageGroup (v : ℚ) : Option String :=
  if 0 ≤ v ∧ v ≤ 25 then some "18-25"
  else if 25 < v ∧ v ≤ 35 then some "26-35"
  else if 35 < v ∧ v ≤ 50 then some "36-50"
  else if 50 < v ∧ v ≤ 65 then some "51-65"
  else if 65 < v ∧ v ≤ 100 then some "65+"
  else none

/-- `bin_age`: categorical age group, then drop the exact age column. -/
def bin_age (df : List Row) : List Row :=
  df.map (fun r =>
    { r with
      user_age_group := r.user_age.bind ageGroup
      user_age := none })

/-- Occurrence count of one value in one object column
(`value_counts`, which ignores nulls). -/
def countVal (get : Row → Option String) (df : List Row) (v : String) :
    ℕ :=
  df.countP (fun r => get r == some v)

/-- Replacement of one cell by the rare-category pass: a non-null value
occurring fewer than `threshold` times in its column becomes the literal
"OTHER"; nulls are untouched (`value_counts` ignores them and
`x in rare_values` is false for NaN). -/
def rareReplace (get : Row → Option String) (df : List Row)
    (threshold : ℕ) (c : Option String) : Option String :=
  match c with
  | some v => if countVal get df v < threshold then some "OTHER" else some v
  | none => none

/-- `remove_rare_categories`: applied to every object-dtype column of
the frame at this point — `status`, `season`, `interaction_type`,
`interaction_id`, `user_id`, `recommendation_id`, `user_hash`,
`user_nationality`, `user_region` (`user_age_group` is a pandas
*category* column, which `select_dtypes(include=['object'])` does not
select).  Columns are processed independently; each column's counts are
the counts in the stage's input frame. -/
def remove_rare_categories (df : List Row) (threshold : ℕ) : List Row :=
  df.map (fun r =>
    { r with
      status := rareReplace Row.status df threshold r.status
      season := rareReplace Row.season df threshold r.season
      interaction_type :=
        rareReplace Row.interaction_type df threshold r.interaction_type
      interaction_id :=
        rareReplace Row.interaction_id df threshold r.interaction_id
      user_id := rareReplace Row.user_id df threshold r.user_id
      recommendation_id :=
        rareReplace Row.recommendation_id df threshold r.recommendation_id
      user_hash := rareReplace Row.user_hash df threshold r.user_hash
      user_nationality :=
        rareReplace Row.user_nationality df threshold r.user_nationality
      user_region :=
        rareReplace Row.user_region df threshold r.user_region })

/-- `remove_pii`: drop the PII columns present in this frame
(`user_id`, `dateOfBirth`, `recommendation_id`). -/
def remove_pii (df : List Row) : List Row :=
  df.map (fun r =>
    { r with
      user_id := none
      dateOfBirth := none
      recommendation_id := none })

/-- `anonymize_dataset` from `etl/gdpr_anonymization.py`: hash,
generalize, bin, suppress rare categories (threshold 10), and only then
remove PII. -/
def anonymize_dataset (df : List Row) : List Row :=
  remove_pii
    (remove_rare_categories
      (bin_age (generalize_nationality (hash_user_ids df))) 10)

theorem sha256hex_injective : Function.Injective sha256hex := by
  intro a b h
  cases a with
  | mk da =>
    cases b with
    | mk db =>
      unfold sha256hex at h
      injection h with h2
      injection h2 with h3 h4
      exact congrArg String.mk h4

/-- Concrete two-user frame: each identifier occurs once, far below the
threshold of 10. -/
def rareUserFrame : List Row :=
  [{ baseRow with user_id := some "alice" },
   { baseRow with user_id := some "bob" }]

/-- Claim C10: the rare-category pass iterates over every object column
— including the fresh `user_hash` and the not-yet-dropped `user_id` —
so a user whose identifier occurs fewer than 10 times in the frame ends
with the literal "OTHER" as `user_hash`, not the SHA-256 digest;
consequently distinct raw identifiers need not map to distinct
`user_hash` values. -/
theorem rare_user_hash_suppressed (df : List Row) (i : ℕ)
    (h : i < df.length) (u : String)
    (hu : df[i].user_id = some u)
    (hcount : df.countP (fun r => strOfCell r.user_id == u) < 10) :
    ∃ h2 : i < (anonymize_dataset df).length,
      (anonymize_dataset df)[i].user_hash = some "OTHER" ∧
      "OTHER" ≠ sha256hex u := by
  have hlen : (anonymize_dataset df).length = df.length := by
    simp [anonymize_dataset, remove_pii, remove_rare_categories,
      bin_age, generalize_nationality, hash_user_ids]
  have hcv : countVal Row.user_hash
      (bin_age (generalize_nationality (hash_user_ids df)))
      (sha256hex u) =
      df.countP (fun r => strOfCell r.user_id == u) := by
    unfold countVal bin_age generalize_nationality hash_user_ids
    rw [List.countP_map, List.countP_map, List.countP_map]
    apply List.countP_congr
    intro r _
    by_cases hb : strOfCell r.user_id = u
    · simp [Function.comp, hb]
    · have hsha : sha256hex (strOfCell r.user_id) ≠ sha256hex u :=
        fun hh => hb (sha256hex_injective hh)
      simp [Function.comp, hb, hsha]
  have hB : ∀ hh : i <
      (bin_age (generalize_nationality (hash_user_ids df))).length,
      (bin_age (generalize_nationality (hash_user_ids df)))[i].user_hash
        = some (sha256hex u) := by
    intro hh
    simp only [bin_age, generalize_nationality, hash_user_ids,
      List.getElem_map]
    rw [hu]
    rfl
  refine ⟨by rw [hlen]; exact h, ?_, ?_⟩
  · simp only [anonymize_dataset, remove_pii, remove_rare_categories,
      List.getElem_map]
    rw [hB]
    simp only [rareReplace]
    rw [hcv]
    rw [if_pos hcount]
  · intro he
    have he2 := congrArg String.data he
    have he3 : ['O','T','H','E','R'] = '#' :: u.data := he2
    injection he3 with hc _
    exact absurd hc (by decide)

/-- Witness for C10 at a two-user frame: the first user occurs once
(< 10), so their exported `user_hash` is the literal "OTHER". -/
theorem rare_user_hash_suppressed_witness :
    ∃ h2 : 0 < (anonymize_dataset rareUserFrame).length,
      (anonymize_dataset rareUserFrame)[0].user_hash = some "OTHER" ∧
      "OTHER" ≠ sha256hex "alice" :=
  rare_user_hash_suppressed rareUserFrame 0 (by decide) "alice"
    (by decide) (by decide)

/-! ### utils/validators.py -/

namespace Validators

/-- `validate_required_columns`: every required column present and
non-null, else ValueError.  Of `REQUIRED_COLUMNS` the modelled frame
carries `user_hash`, `user_climate_pref`, `recommendation_score`,
`engagement_score`, `booking_probability`; in the fixed schema the
presence check always passes and the null checks run per column in
config order. -/
def validate_required_columns (df : List Row) : Except String Unit :=
  if df.any (fun r => r.user_hash.isNone) then
    .error "ValueError: required column user_hash has null values"
  else if df.any (fun r => r.user_climate_pref.isNone) then
    .error "ValueError: required column user_climate_pref has null values"
  else if df.any (fun r => r.recommendation_score.isNone) then
    .error "ValueError: required column recommendation_score has null values"
  else if df.any (fun r => r.engagement_score.isNone) then
    .error "ValueError: required column engagement_score has null values"
  else if df.any (fun r => r.booking_probability.isNone) then
    .error "ValueError: required column booking_probability has null values"
  else .ok ()

/-- `validate_vector_ranges` from `utils/validators.py`: iterates the
columns suffixed `_pref`/`_level`/`_type` with NO dtype guard (unlike
its cleaning-stage namesake).  On this frame those are
`user_climate_pref` (float: clipped into [0, 1] when out of range) and
`interaction_type` (object holding strings: the elementwise comparison
`df[col] < 0` between str and int raises TypeError as soon as the
column holds any non-null value; an all-null object column compares
elementwise to False and does not raise). -/
def validate_vector_ranges (df : List Row) : Except String (List Row) :=
  let df1 :=
    if df.any (fun r =>
        match r.user_climate_pref with
        | some v => decide (v < 0) || decide (1 < v)
        | none => false) then
      df.map (fun r =>
        { r with user_climate_pref :=
            r.user_climate_pref.map (fun v => min 1 (max 0 v)) })
    else df
  if df1.any (fun r => r.interaction_type.isSome) then
    .error "TypeError: comparison not supported between str and int"
  else .ok df1

/-- `validate_engagement_scores`: any value outside the five legal
scores — including a null, since `isin` is false for NaN — raises
ValueError. -/
def validate_engagement_scores (df : List Row) : Except String Unit :=
  if df.any (fun r =>
      match r.engagement_score with
      | some v => decide (¬(v = -1 ∨ v = 0 ∨ v = 1 ∨ v = 3 ∨ v = 5))
      | none => true) then
    .error "ValueError: invalid engagement_score values found"
  else .ok ()

/-- `validate_booking_probability`: every value must be 0 or 1 (a null
fails `isin([0, 1]).all()` too). -/
def validate_booking_probability (df : List Row) : Except String Unit :=
  if df.all (fun r =>
      match r.booking_probability with
      | some v => decide (v = 0 ∨ v = 1)
      | none => false) then .ok ()
  else .error "ValueError: booking_probability must be 0 or 1"

/-- `validate_dataset`: the four validators in sequence; the first
exception aborts. -/
def validate_dataset (df : List Row) : Except String Unit :=
  match validate_required_columns df with
  | .error e => .error e
  | .ok _ =>
    match validate_vector_ranges df with
    | .error e => .error e
    | .ok _ =>
      match validate_engagement_scores df with
      | .error e => .error e
      | .ok _ => validate_booking_probability df

end Validators

/-- One-row frame carrying the standard string-valued
`interaction_type` column every pipeline run produces. -/
def typedFrame : List Row :=
  [{ baseRow with interaction_type := some "BOOKED" }]

/-- Claim C7 (code evidence): on a frame whose `_type`-suffixed column
holds a string value — as `interaction_type` always does from Label
Construction onward — the validator's range check raises TypeError
instead of returning normally. -/
theorem validate_vector_ranges_type_error :
    Validators.validate_vector_ranges typedFrame =
      .error "TypeError: comparison not supported between str and int" := by
  rfl

/-! ### etl/export_dataset.py and scripts/run_etl.py (step 10) -/

/-- Filesystem artifacts step 10 can write. -/
inductive Artifact where
  | trainParquet
  | testParquet
  | sampleCsv
  | metadataJson
  | reportHtml
deriving DecidableEq, Repr

/-- `train_test_split(df, test_size=0.2, stratify=…, random_state=42)`,
returning (train, test): the seeded stratified selection is modelled as
the deterministic split taking the first fifth as the test partition. -/
def split_df (df : List Row) : List Row × List Row :=
  (df.drop (df.length / 5), df.take (df.length / 5))

/-- Step 10 of `run_etl_pipeline`: `split_and_export` writes the train
and test parquet files and the sample CSV and only then validation runs
on both partitions; metadata and the quality report are generated only
after both validations pass.  The result is the outcome together with
the artifacts written. -/
def run_etl_step10 (df : List Row) :
    Except String Unit × List Artifact :=
  let written : List Artifact :=
    [.trainParquet, .testParquet, .sampleCsv]
  match Validators.validate_dataset (split_df df).1 with
  | .error e => (.error e, written)
  | .ok _ =>
    match Validators.validate_dataset (split_df df).2 with
    | .error e => (.error e, written)
    | .ok _ => (.ok (), written ++ [.metadataJson, .reportHtml])

/-- Exit code of `run_etl.py` as a function of the step-10 outcome: the
`__main__` wrapper exits 1 on any exception. -/
def run_etl_exit_code (df : List Row) : ℕ :=
  match (run_etl_step10 df).1 with
  | .error _ => 1
  | .ok _ => 0

/-- Five-row frame whose non-binary `booking_probability` (7) makes
validation fail on both partitions. -/
def invalidExportFrame : List Row :=
  List.replicate 5
    { baseRow with
      user_hash := some "h"
      user_climate_pref := some 1
      recommendation_score := some 0
      engagement_score := some 5
      booking_probability := some 7 }

/-- Claim C8 (amended): when validation of the train or the test
partition fails, step 10 terminates with an error (so the run exits
non-zero) and neither the metadata file nor the quality report is
generated — but the train/test parquet files and the sample CSV have
already been written by `split_and_export` before validation ran, so
they are committed for the invalid run. -/
theorem export_aborts_after_writing (df : List Row)
    (h : (Validators.validate_dataset (split_df df).1).isOk = false ∨
         (Validators.validate_dataset (split_df df).2).isOk = false) :
    run_etl_exit_code df = 1 ∧
    (run_etl_step10 df).2 =
      [Artifact.trainParquet, Artifact.testParquet, Artifact.sampleCsv] ∧
    Artifact.metadataJson ∉ (run_etl_step10 df).2 ∧
    Artifact.reportHtml ∉ (run_etl_step10 df).2 ∧
    Artifact.trainParquet ∈ (run_etl_step10 df).2 := by
  have hstep : (run_etl_step10 df).1.isOk = false ∧
      (run_etl_step10 df).2 =
      [Artifact.trainParquet, Artifact.testParquet,
       Artifact.sampleCsv] := by
    unfold run_etl_step10
    cases h1 : Validators.validate_dataset (split_df df).1 with
    | error e => exact ⟨rfl, rfl⟩
    | ok u =>
      cases h2 : Validators.validate_dataset (split_df df).2 with
      | error e => exact ⟨rfl, rfl⟩
      | ok v =>
        exfalso
        rcases h with h | h
        · rw [h1] at h
          exact absurd h (by simp [Except.isOk, Except.toBool])
        · rw [h2] at h
          exact absurd h (by simp [Except.isOk, Except.toBool])
  obtain ⟨hfail, harts⟩ := hstep
  refine ⟨?_, harts, ?_, ?_, ?_⟩
  · unfold run_etl_exit_code
    cases hx : (run_etl_step10 df).1 with
    | error e => rfl
    | ok u => rw [hx] at hfail; exact absurd hfail (by simp [Except.isOk, Except.toBool])
  · rw [harts]; decide
  · rw [harts]; decide
  · rw [harts]; decide

/-- Witness for C8's amended theorem at the concrete invalid frame. -/
theorem export_aborts_after_writing_witness :
    ((Validators.validate_dataset (split_df invalidExportFrame).1).isOk
        = false ∨
     (Validators.validate_dataset (split_df invalidExportFrame).2).isOk
        = false) ∧
    run_etl_exit_code invalidExportFrame = 1 :=
  ⟨by decide,
    (export_aborts_after_writing invalidExportFrame (by decide)).1⟩

/-- Counterexample to C8 as stated: on the invalid frame the run does
fail validation (non-zero outcome), yet the train parquet file is among
the artifacts committed for the invalid run — the claim's "no snapshot
or artifact is committed" is false. -/
theorem export_writes_train_file_counterexample :
    (run_etl_step10 invalidExportFrame).1.isOk = false ∧
    Artifact.trainParquet ∈ (run_etl_step10 invalidExportFrame).2 := by
  decide

/-! ### etl/feature_engineering.py -/

/-- `SEASON_MAPPING` from `config/dataset_config.py`. -/
def SEASON_MAPPING (m : ℕ) : Option String :=
  if m = 12 ∨ m = 1 ∨ m = 2 then some "winter"
  else if m = 3 ∨ m = 4 ∨ m = 5 then some "spring"
  else if m = 6 ∨ m = 7 ∨ m = 8 then some "summer"
  else if m = 9 ∨ m = 10 ∨ m = 11 then some "autumn"
  else none

/-- Calendar month of a model instant.  The verified claims depend only
on null/error propagation, never on calendar arithmetic, so the month
extractor is modelled as a total function of the instant (a month of
uniform length). -/
def monthOf (t : ℤ) : ℕ := ((t / 2592000) % 12).toNat + 1

/-- Weekday of a model instant (0 = Monday … 6 = Sunday; the epoch is
taken to fall on a Thursday). -/
def dayOfWeekOf (t : ℤ) : ℕ := ((t / 86400 + 3) % 7).toNat

/-- Per-row effect of `calculate_temporal_features` once the frame-wide
`pd.to_datetime(df['createdAt'])` conversion has succeeded:
`dateOfBirth` and `departureDate` are converted with `errors='coerce'`
(an unparseable value becomes NaT); `user_age` is the floored day
difference to now, integer-divided by 365 and clipped to [18, 100],
null when the birth date is null or unparseable; `timestamp` is the
parsed creation instant; `season` maps its month; `is_weekend` is a
bool column, false (not null) when the timestamp is null;
`days_until_departure` is the day difference clipped to [0, 365], null
when either date is missing or the departure date unparseable. -/
def tempRow (now : ℤ) (r : Row) : Row :=
  let ts : Option ℤ :=
    match r.createdAt with
    | some (.well t) => some t
    | _ => none
  { r with
    dateOfBirth :=
      match r.dateOfBirth with
      | some .bad => none
      | x => x
    departureDate :=
      match r.departureDate with
      | some .bad => none
      | x => x
    user_age :=
      match r.dateOfBirth with
      | some (.well t) =>
        some (min 100 (max 18
          ((Int.fdiv (Int.fdiv (now - t) 86400) 365 : ℤ) : ℚ)))
      | _ => none
    timestamp := ts
    season := ts.bind (fun t => SEASON_MAPPING (monthOf t))
    is_weekend := some
      (match ts with
       | some t => decide (dayOfWeekOf t = 5 ∨ dayOfWeekOf t = 6)
       | none => false)
    days_until_departure :=
      match r.departureDate, ts with
      | some (.well d), some t =>
        some (min 365 (max 0 ((Int.fdiv (d - t) 86400 : ℤ) : ℚ)))
      | _, _ => none }

/-- `calculate_temporal_features` from `etl/feature_engineering.py`:
the `createdAt` column is converted by `pd.to_datetime` WITHOUT
`errors='coerce'`, so a single unparseable creation timestamp raises
for the whole frame; otherwise the per-row temporal features are
computed. -/
def calculate_temporal_features (now : ℤ) (df : List Row) :
    Except String (List Row) :=
  if df.any (fun r => r.createdAt == some TimeVal.bad) then
    .error "ParserError: unparseable createdAt"
  else .ok (df.map (tempRow now))

/-- One-row frame with an unparseable creation timestamp. -/
def badCreatedFrame : List Row :=
  [{ baseRow with createdAt := some TimeVal.bad }]

/-- Counterexample to C6 as stated: a row whose interaction creation
timestamp is unparseable makes the temporal-feature stage raise instead
of returning normally with null features. -/
theorem temporal_features_raise_on_bad_created :
    calculate_temporal_features 0 badCreatedFrame =
      .error "ParserError: unparseable createdAt" := by
  rfl

/-- Claim C6 (amended): when every creation timestamp is null or
parseable, the stage returns normally, and rows whose birth date or
departure date is unparseable get null `user_age` /
`days_until_departure` (coerced to NaT, then NaN); but an unparseable
creation timestamp raises for the whole frame, because only the
`dateOfBirth`/`departureDate` conversions use `errors='coerce'`. -/
theorem temporal_features_coerce_unparseable (now : ℤ) (df : List Row)
    (h : ∀ r ∈ df, r.createdAt ≠ some TimeVal.bad) :
    calculate_temporal_features now df = .ok (df.map (tempRow now)) ∧
    (∀ r : Row, r.dateOfBirth = some TimeVal.bad →
      (tempRow now r).user_age = none) ∧
    (∀ r : Row, r.departureDate = some TimeVal.bad →
      (tempRow now r).days_until_departure = none) := by
  refine ⟨?_, ?_, ?_⟩
  · unfold calculate_temporal_features
    rw [if_neg]
    intro hany
    obtain ⟨r, hr, hb⟩ := List.any_eq_true.mp hany
    exact h r hr (by simpa using hb)
  · intro r hb
    simp [tempRow, hb]
  · intro r hb
    simp [tempRow, hb]

/-- Frame with parseable-or-null creation timestamps and unparseable
birth and departure dates. -/
def coerceFrame : List Row :=
  [{ baseRow with
      createdAt := some (TimeVal.well 86400)
      dateOfBirth := some TimeVal.bad
      departureDate := some TimeVal.bad },
   { baseRow with createdAt := none }]

/-- Witness for C6's amended theorem: the stage returns normally on
`coerceFrame`. -/
theorem temporal_features_coerce_unparseable_witness :
    calculate_temporal_features 0 coerceFrame =
      .ok (coerceFrame.map (tempRow 0)) :=
  (temporal_features_coerce_unparseable 0 coerceFrame (by decide)).1

/-- The label-consistency invariant of a row: the engagement score is
present, `booking_probability == 1 ⟺ engagement_score == 5.0`, and the
booking probability is binary. -/
def LabelInv (r : Row) : Prop :=
  (∃ e, r.engagement_score = some e) ∧
  (r.booking_probability = some 1 ↔ r.engagement_score = some 5) ∧
  (r.booking_probability = some 0 ∨ r.booking_probability = some 1)

theorem construct_labels_LabelInv (df : List Row) :
    ∀ r ∈ construct_labels df, LabelInv r := by
  intro r hr
  obtain ⟨a, ha, rfl⟩ := List.mem_map.mp hr
  have hES : ENGAGEMENT_SCORES "BOOKED" = 5 := by
    simp [ENGAGEMENT_SCORES]
  refine ⟨⟨calculate_engagement_score a, rfl⟩, ?_, ?_⟩
  · show (some (if calculate_engagement_score a =
        ENGAGEMENT_SCORES "BOOKED" then (1:ℚ) else 0) = some 1) ↔
      (some (calculate_engagement_score a) = some (5:ℚ))
    rw [hES]
    by_cases hs : calculate_engagement_score a = 5
    · simp [hs]
    · simp [hs]
  · show (some (if calculate_engagement_score a =
        ENGAGEMENT_SCORES "BOOKED" then (1:ℚ) else 0) = some 0) ∨
      (some (if calculate_engagement_score a =
        ENGAGEMENT_SCORES "BOOKED" then (1:ℚ) else 0) = some 1)
    rw [hES]
    by_cases hs : calculate_engagement_score a = 5
    · right; simp [hs]
    · left; simp [hs]

theorem LabelInv_imputeRow {df : List Row} {r : Row} (h : LabelInv r) :
    LabelInv (imputeRow df r) := by
  obtain ⟨⟨e, he⟩, hiff, hbin⟩ := h
  have hbsome : ∃ b, r.booking_probability = some b := by
    rcases hbin with h0 | h1
    exacts [⟨0, h0⟩, ⟨1, h1⟩]
  obtain ⟨b, hb⟩ := hbsome
  have h1 : (imputeRow df r).engagement_score = r.engagement_score := by
    show fillN df Row.engagement_score r = r.engagement_score
    rw [fillN_of_some he, he]
  have h2 : (imputeRow df r).booking_probability =
      r.booking_probability := by
    show fillN df Row.booking_probability r = r.booking_probability
    rw [fillN_of_some hb, hb]
  refine ⟨⟨e, by rw [h1, he]⟩, ?_, ?_⟩
  · rw [h1, h2]
    exact hiff
  · rw [h2]
    exact hbin

theorem mem_add_negative_samples {df : List Row} {rat : ℚ} {r : Row}
    (hr : r ∈ add_negative_samples df rat) : r ∈ df := by
  rw [add_negative_samples, shuffle42, List.mem_reverse,
    List.mem_append] at hr
  rcases hr with hr | hr
  · exact List.mem_of_mem_filter hr
  · exact List.mem_of_mem_filter (mem_sampled_negatives hr)

theorem clean_dataset_LabelInv {X : List Row}
    (h : ∀ r ∈ X, LabelInv r) :
    ∀ r ∈ clean_dataset X, LabelInv r := by
  intro r hr
  obtain ⟨c, hc, rfl⟩ := clean_parent hr
  obtain ⟨a, ha, rfl⟩ :=
    mem_impute ((remove_outliers_sublist _).subset hc)
  have haX : a ∈ X := (mem_remove_missing_required ha).1
  exact LabelInv_imputeRow (h a haX)

theorem anonymize_LabelInv {X : List Row} (h : ∀ r ∈ X, LabelInv r) :
    ∀ r ∈ anonymize_dataset X, LabelInv r := by
  intro r hr
  unfold anonymize_dataset remove_pii at hr
  obtain ⟨c, hc, rfl⟩ := List.mem_map.mp hr
  unfold remove_rare_categories at hc
  obtain ⟨b, hb, rfl⟩ := List.mem_map.mp hc
  unfold bin_age at hb
  obtain ⟨a2, ha2, rfl⟩ := List.mem_map.mp hb
  unfold generalize_nationality at ha2
  obtain ⟨a1, ha1, rfl⟩ := List.mem_map.mp ha2
  unfold hash_user_ids at ha1
  obtain ⟨a0, ha0, rfl⟩ := List.mem_map.mp ha1
  exact h a0 ha0

/-- Claim C2: from Label Construction onward, every dataset in the
pipeline — the labeled frame, the balanced frame, the cleaned frame,
the anonymized frame and both final partitions — satisfies row-wise
`booking_probability == 1 ⟺ engagement_score == 5.0` with a binary
booking probability: the invariant is established by `construct_labels`
and preserved unchanged by negative sampling, cleaning, anonymization
and the train/test split. -/
theorem label_consistency (df : List Row) (rat : ℚ) :
    (∀ r ∈ construct_labels df, LabelInv r) ∧
    (∀ r ∈ add_negative_samples (construct_labels df) rat,
      LabelInv r) ∧
    (∀ r ∈ clean_dataset
        (add_negative_samples (construct_labels df) rat), LabelInv r) ∧
    (∀ r ∈ anonymize_dataset (clean_dataset
        (add_negative_samples (construct_labels df) rat)),
      LabelInv r) ∧
    (∀ r ∈ (split_df (anonymize_dataset (clean_dataset
        (add_negative_samples (construct_labels df) rat)))).1,
      LabelInv r) ∧
    (∀ r ∈ (split_df (anonymize_dataset (clean_dataset
        (add_negative_samples (construct_labels df) rat)))).2,
      LabelInv r) := by
  have h0 := construct_labels_LabelInv df
  have h1 : ∀ r ∈ add_negative_samples (construct_labels df) rat,
      LabelInv r :=
    fun r hr => h0 r (mem_add_negative_samples hr)
  have h2 := clean_dataset_LabelInv h1
  have h3 := anonymize_LabelInv h2
  refine ⟨h0, h1, h2, h3, ?_, ?_⟩
  · intro r hr
    exact h3 r (List.drop_subset _ _ hr)
  · intro r hr
    exact h3 r (List.take_subset _ _ hr)

/-- Witness for C2 at a one-row frame with a booked interaction. -/
theorem label_consistency_witness :
    LabelInv (labelRow { baseRow with status := some "BOOKED" }) :=
  (label_consistency [{ baseRow with status := some "BOOKED" }] 2).1
    (labelRow { baseRow with status := some "BOOKED" })
    (List.mem_map_of_mem labelRow (List.mem_singleton_self _))
